import Mathlib

/-!
Shallow embedding of the campus attendance application (React + Supabase)
and proofs about it.

Source files embedded here:
* src/pages/Auth.tsx          -- rate limiter, login attempt logging, login flow
* src/pages/Dashboard.tsx     -- haversine distance, location gate, session steps
* src/components/AttendanceCamera.tsx -- face/voice verification, record insert
* supabase/migrations/..._064af822....sql -- handle_new_student upsert trigger

JavaScript strings that are processed character by character (lowercasing,
splitting on spaces, substring search in the voice check) are modelled as
lists of characters so that all string operations are executable in the
kernel; plain data fields that are only copied around keep the Lean
String type. Timestamps are integers in milliseconds since the epoch,
matching Date.now(). IEEE doubles in the distance computation are
modelled as real numbers.
-/

set_option linter.unusedVariables false

namespace CampusAuth

/-- Character sequence of a JavaScript string value. -/
abbrev Str := List Char

/-- JavaScript String.prototype.toLowerCase, character by character. -/
def strToLower (s : Str) : Str := s.map Char.toLower

/-- JavaScript String.prototype.split " " : splits on every single space
and keeps empty fragments, so a leading space yields an empty first
fragment, exactly as in JS. -/
def splitOnSpace : Str → List Str
  | [] => [[]]
  | c :: rest =>
    if c = ' ' then [] :: splitOnSpace rest
    else
      match splitOnSpace rest with
      | [] => [[c]]
      | t :: ts => (c :: t) :: ts

/-- Auxiliary for substring search: the needle occurs at the head of the
haystack. -/
def charsStartWith : Str → Str → Bool
  | _, [] => true
  | [], _ :: _ => false
  | a :: as, b :: bs => a == b && charsStartWith as bs

/-- JavaScript String.prototype.includes: contiguous substring search. -/
def charsContain : Str → Str → Bool
  | [], needle => needle.isEmpty
  | a :: t, needle => charsStartWith (a :: t) needle || charsContain t needle

/-! ### Rate limiter and login flow (src/pages/Auth.tsx) -/

/-- One row of the login_attempts table
(supabase/migrations/..._28bb84f3....sql). -/
structure LoginAttempt where
  identifier : Str
  attempt_time : Int
  success : Bool
deriving DecidableEq

/-- The 15 minute window used by checkRateLimit (Auth.tsx line 66):
15 * 60 * 1000 milliseconds. -/
def RATE_WINDOW_MS : Int := 15 * 60 * 1000

/-- The server side of the query issued by checkRateLimit (Auth.tsx lines
68-73): rows of login_attempts with identifier equal to the argument and
attempt_time greater than or equal to fifteenMinutesAgo. The order clause
only permutes the result and is irrelevant to the count taken later. -/
def loginAttemptsQuery (db : List LoginAttempt) (identifier : Str) (now : Int) :
    List LoginAttempt :=
  db.filter fun r =>
    r.identifier == identifier && decide (now - RATE_WINDOW_MS ≤ r.attempt_time)

/-- checkRateLimit (Auth.tsx lines 65-89) applied to the response of the
query. Returns true when the attempt may proceed. On a query error it
returns true (fail open, lines 75-78); otherwise it counts the rows with
success = false and rejects when that count reaches 5 (lines 81-86). -/
def checkRateLimit (identifier : Str) (now : Int)
    (qres : Except Str (List LoginAttempt)) : Bool :=
  match qres with
  | Except.error _ => true
  | Except.ok data => decide ((data.filter fun r => !r.success).length < 5)

/-- checkRateLimit run against an error free database snapshot. -/
def checkRateLimitOn (db : List LoginAttempt) (identifier : Str) (now : Int) : Bool :=
  checkRateLimit identifier now (Except.ok (loginAttemptsQuery db identifier now))

/-- logLoginAttempt (Auth.tsx lines 92-100): the row handed to the insert,
identifier and success flag. -/
def logLoginAttempt (identifier : Str) (success : Bool) : Str × Bool :=
  (identifier, success)

/-- Result of the students point lookup by roll number (Auth.tsx lines
131-135): an error, no row (maybeSingle returned null), or the stored
email. The code treats the first two cases identically (line 137). -/
inductive LookupResult
  | err
  | notFound
  | found (email : Str)

/-- Result of signInWithPassword (Auth.tsx lines 144-147). -/
inductive SignInResult
  | err
  | ok

/-- Environment of one handleLogin run after validation: either some
awaited call threw (the catch block, lines 157-159), or the rate check,
lookup and sign in completed with the given results. -/
inductive LoginEnv
  | throws
  | normal (rateAllowed : Bool) (lookup : LookupResult) (signIn : SignInResult)

/-- Outcome of one handleLogin run after validation. -/
inductive LoginOutcome
  | rateLimited
  | unknownRoll
  | badCredentials
  | success
  | transportError
deriving DecidableEq

/-- handleLogin (Auth.tsx lines 102-163) after successful validation:
returns the outcome together with the list of rows handed to
logLoginAttempt, in order. The rate limited early return (lines 124-128)
logs nothing; every other path logs exactly once, with the original
rollNumber. -/
def handleLogin (rollNumber : Str) (env : LoginEnv) : LoginOutcome × List (Str × Bool) :=
  match env with
  | LoginEnv.throws =>
    (LoginOutcome.transportError, [logLoginAttempt rollNumber false])
  | LoginEnv.normal false _ _ =>
    (LoginOutcome.rateLimited, [])
  | LoginEnv.normal true LookupResult.err _ =>
    (LoginOutcome.unknownRoll, [logLoginAttempt rollNumber false])
  | LoginEnv.normal true LookupResult.notFound _ =>
    (LoginOutcome.unknownRoll, [logLoginAttempt rollNumber false])
  | LoginEnv.normal true (LookupResult.found _) SignInResult.err =>
    (LoginOutcome.badCredentials, [logLoginAttempt rollNumber false])
  | LoginEnv.normal true (LookupResult.found _) SignInResult.ok =>
    (LoginOutcome.success, [logLoginAttempt rollNumber true])

/-! ### Distance computation and dashboard session (src/pages/Dashboard.tsx) -/

/-- JavaScript Math.atan2 on real numbers, by the usual case split. In
this development it is only ever applied with a positive second argument,
where it equals arctan of the quotient. -/
noncomputable def atan2 (y x : ℝ) : ℝ :=
  if 0 < x then Real.arctan (y / x)
  else if x < 0 ∧ 0 ≤ y then Real.arctan (y / x) + Real.pi
  else if x < 0 ∧ y < 0 then Real.arctan (y / x) - Real.pi
  else if x = 0 ∧ 0 < y then Real.pi / 2
  else if x = 0 ∧ y < 0 then -(Real.pi / 2)
  else 0

/-- calculateDistance (Dashboard.tsx lines 53-66): haversine distance in
meters between two latitude/longitude pairs, earth radius 6371e3. -/
noncomputable def calculateDistance (lat1 lon1 lat2 lon2 : ℝ) : ℝ :=
  let R : ℝ := 6371e3
  let phi1 := lat1 * Real.pi / 180
  let phi2 := lat2 * Real.pi / 180
  let dphi := (lat2 - lat1) * Real.pi / 180
  let dlam := (lon2 - lon1) * Real.pi / 180
  let a := Real.sin (dphi / 2) * Real.sin (dphi / 2) +
    Real.cos phi1 * Real.cos phi2 * Real.sin (dlam / 2) * Real.sin (dlam / 2)
  let c := 2 * atan2 (Real.sqrt a) (Real.sqrt (1 - a))
  R * c

/-- Fixed reference coordinate (Dashboard.tsx line 20). -/
def COLLEGE_LAT : ℝ := 28.6139

/-- Fixed reference coordinate (Dashboard.tsx line 21). -/
def COLLEGE_LON : ℝ := 77.2090

/-- Radius threshold in meters (Dashboard.tsx line 22). -/
def ALLOWED_RADIUS_METERS : ℝ := 100

/-- The currentStep values of the dashboard (Dashboard.tsx line 16). -/
inductive Step
  | location
  | camera
  | voice
  | complete
deriving DecidableEq

/-- Dashboard component state relevant to the verification flow:
currentStep, locationValid and showCamera (Dashboard.tsx lines 15-17). -/
structure DashState where
  currentStep : Step
  locationValid : Bool
  showCamera : Bool
deriving DecidableEq

/-- Initial dashboard state (Dashboard.tsx lines 15-17). -/
def initialDashState : DashState :=
  { currentStep := Step.location, locationValid := false, showCamera := false }

/-- The geolocation success callback inside checkLocation (Dashboard.tsx
lines 77-95): computes the distance from the device position to the
reference coordinate; within the radius it sets locationValid, moves
currentStep to camera and shows the camera, otherwise it leaves the state
unchanged and reports the measured distance (the toast displays it
rounded, line 92). -/
noncomputable def onPosition (s : DashState) (lat lon : ℝ) : DashState × Option ℝ :=
  if calculateDistance lat lon COLLEGE_LAT COLLEGE_LON ≤ ALLOWED_RADIUS_METERS then
    ({ s with locationValid := true, currentStep := Step.camera, showCamera := true }, none)
  else
    (s, some (calculateDistance lat lon COLLEGE_LAT COLLEGE_LON))

/-- handleAttendanceMarked (Dashboard.tsx lines 108-112). -/
def handleAttendanceMarked (s : DashState) : DashState :=
  { s with currentStep := Step.complete, showCamera := false }

/-- Click handler of the Mark Another Attendance button (Dashboard.tsx
line 238): it only sets currentStep back to location. -/
def resetToLocation (s : DashState) : DashState :=
  { s with currentStep := Step.location }

/-- Render guard of the Mark Attendance card (Dashboard.tsx line 144):
shown when the camera is hidden and the session is not complete. -/
def attendanceCardVisible (s : DashState) : Bool :=
  !s.showCamera && !(s.currentStep == Step.complete)

/-- Render guard of the Verify Location button (Dashboard.tsx lines
144 and 163): inside the card, only while locationValid is false. -/
def verifyLocationButtonVisible (s : DashState) : Bool :=
  attendanceCardVisible s && !s.locationValid

/-! ### Camera component (src/components/AttendanceCamera.tsx) -/

/-- Component state of AttendanceCamera (lines 15-17): faceDetected,
voiceVerifying, voiceVerified. -/
structure CamState where
  faceDetected : Bool
  voiceVerifying : Bool
  voiceVerified : Bool
deriving DecidableEq

/-- The callback events that drive the AttendanceCamera state. -/
inductive CamEvent
  /-- The simulated face detection timer fires (lines 40-43). -/
  | faceTimer
  /-- startVoiceVerification is entered (line 71). -/
  | voiceStart
  /-- recognition.onresult fires with the given transcript (lines 92-104). -/
  | voiceResult (transcript : Str)
  /-- recognition.onerror fires (lines 106-110). -/
  | voiceError
  /-- The fallback timer on a platform without SpeechRecognition fires
  (lines 80-84). -/
  | voiceUnsupportedTimer

/-- State transition of AttendanceCamera for one callback. studentName is
the character sequence of studentData.name handed to the component. The
voiceResult branch follows lines 92-104: lowercase the transcript,
lowercase the stored name, split the lowercased name on spaces, and test
whether the transcript contains the first fragment; on a match the voice
step is verified, otherwise only the listening flag is cleared so the
user may retry. -/
def camStep (studentName : Str) (s : CamState) : CamEvent → CamState
  | CamEvent.faceTimer => { s with faceDetected := true }
  | CamEvent.voiceStart => { s with voiceVerifying := true }
  | CamEvent.voiceResult t =>
    let transcript := strToLower t
    let nameLower := strToLower studentName
    if charsContain transcript ((splitOnSpace nameLower).headD []) then
      { s with voiceVerified := true, voiceVerifying := false }
    else
      { s with voiceVerifying := false }
  | CamEvent.voiceError => { s with voiceVerified := true, voiceVerifying := false }
  | CamEvent.voiceUnsupportedTimer =>
    { s with voiceVerified := true, voiceVerifying := false }

/-- One row of the students table (first migration): id, user_id,
roll_number, name, email. -/
structure Student where
  id : String
  user_id : String
  roll_number : String
  name : String
  email : String
deriving DecidableEq

/-- One row of the attendance_records table as composed by markAttendance
(AttendanceCamera.tsx lines 121-132). -/
structure AttendanceRecord where
  student_id : String
  roll_number : String
  name : String
  gps_latitude : ℝ
  gps_longitude : ℝ
  verification_status : String
  verification_method : String
  notes : String

/-- The insert payload built inside markAttendance (AttendanceCamera.tsx
lines 121-132) once the position callback has delivered lat and lon. -/
def markAttendance (studentData : Student) (voiceVerified : Bool) (lat lon : ℝ) :
    AttendanceRecord :=
  { student_id := studentData.id
    roll_number := studentData.roll_number
    name := studentData.name
    gps_latitude := lat
    gps_longitude := lon
    verification_status := "passed"
    verification_method := if voiceVerified then "face+voice" else "face_only"
    notes := "Attendance marked successfully" }

/-- Submission as reachable from the UI: the Mark Attendance button is
rendered only when faceDetected and voiceVerified both hold
(AttendanceCamera.tsx line 255), and clicking it runs markAttendance. -/
def clickMarkAttendance (studentData : Student) (s : CamState) (lat lon : ℝ) :
    Option AttendanceRecord :=
  if s.faceDetected && s.voiceVerified then
    some (markAttendance studentData s.voiceVerified lat lon)
  else
    none

/-! ### Signup trigger (supabase migration, handle_new_student) -/

/-- handle_new_student: INSERT INTO students ... ON CONFLICT (roll_number)
DO UPDATE SET user_id, name, email. The students table is a list of rows;
on a roll_number conflict the existing row is updated in place (its id is
kept), otherwise the new row is appended. -/
def handle_new_student (students : List Student) (newRow : Student) : List Student :=
  if students.any (fun r => r.roll_number == newRow.roll_number) then
    students.map fun r =>
      if r.roll_number == newRow.roll_number then
        { r with user_id := newRow.user_id, name := newRow.name, email := newRow.email }
      else r
  else
    students ++ [newRow]

/-! ### Theorems: rate limiter and login logging -/

/-- C1: the rate limiter allows an attempt iff the database holds fewer
than 5 failed rows for the same identifier inside the 15 minute window
(first conjunct, the count stated directly over the whole table), and a
row that has another identifier, or is older than the window, or was a
success, never changes the decision (second conjunct). -/
theorem rate_limit_spec :
    (∀ (db : List LoginAttempt) (identifier : Str) (now : Int),
      checkRateLimitOn db identifier now = true ↔
        db.countP (fun r =>
          r.identifier == identifier &&
          decide (now - RATE_WINDOW_MS ≤ r.attempt_time) && !r.success) < 5) ∧
    (∀ (db : List LoginAttempt) (identifier : Str) (now : Int) (r : LoginAttempt),
      r.identifier ≠ identifier ∨ r.attempt_time < now - RATE_WINDOW_MS ∨
        r.success = true →
      checkRateLimitOn (r :: db) identifier now = checkRateLimitOn db identifier now) := by
  have key : ∀ (db : List LoginAttempt) (identifier : Str) (now : Int),
      ((loginAttemptsQuery db identifier now).filter fun r => !r.success) =
        db.filter (fun r =>
          r.identifier == identifier &&
          decide (now - RATE_WINDOW_MS ≤ r.attempt_time) && !r.success) := by
    intro db identifier now
    rw [loginAttemptsQuery, List.filter_filter]
    exact List.filter_congr fun r _ => by
      cases h1 : r.identifier == identifier <;> cases r.success <;> simp [h1]
  constructor
  · intro db identifier now
    rw [checkRateLimitOn, checkRateLimit, decide_eq_true_eq, key,
      List.countP_eq_length_filter]
  · intro db identifier now r h
    rw [checkRateLimitOn, checkRateLimitOn, checkRateLimit, checkRateLimit, key, key,
      List.filter_cons_of_neg]
    rcases h with h | h | h
    · simp [h]
    · simp [Int.not_le.mpr h]
    · simp [h]

/-- Witness for C1: a successful attempt by a different identifier does
not change the rate limit decision. -/
theorem rate_limit_spec_witness :
    checkRateLimitOn [{ identifier := ['v'], attempt_time := 0, success := true }] ['u'] 0 =
      checkRateLimitOn [] ['u'] 0 :=
  rate_limit_spec.2 [] ['u'] 0 { identifier := ['v'], attempt_time := 0, success := true }
    (Or.inl (by decide))

/-- C3: every handleLogin run that passes validation and is not stopped by
the rate limiter records exactly one login_attempts row, carrying the
original roll number and a success flag that is true exactly on the
success outcome. -/
theorem login_logging_spec :
    ∀ (rollNumber : Str) (env : LoginEnv),
      (handleLogin rollNumber env).1 ≠ LoginOutcome.rateLimited →
      (handleLogin rollNumber env).2 =
        [(rollNumber, decide ((handleLogin rollNumber env).1 = LoginOutcome.success))] := by
  intro roll env
  rcases env with _ | ⟨ra, lookup, si⟩
  · intro _; rfl
  · cases ra
    · intro h; exact absurd rfl h
    · rcases lookup with _ | _ | email <;> rcases si <;> intro _ <;> rfl

/-- Witness for C3: a successful login records one row flagged true. -/
theorem login_logging_spec_witness :
    (handleLogin ['r'] (LoginEnv.normal true (LookupResult.found ['e']) SignInResult.ok)).2 =
      [(['r'], true)] :=
  login_logging_spec ['r'] (LoginEnv.normal true (LookupResult.found ['e']) SignInResult.ok)
    (by decide)

/-- C4: on a query error the rate limiter returns true for every
identifier (fail open), and consequently a handleLogin run whose rate
check errored never ends rate limited. -/
theorem rate_limit_fail_open :
    ∀ (identifier : Str) (now : Int) (msg : Str),
      checkRateLimit identifier now (Except.error msg) = true ∧
      ∀ (lookup : LookupResult) (si : SignInResult),
        (handleLogin identifier (LoginEnv.normal
          (checkRateLimit identifier now (Except.error msg)) lookup si)).1 ≠
          LoginOutcome.rateLimited := by
  intro identifier now msg
  refine ⟨rfl, ?_⟩
  intro lookup si
  rcases lookup with _ | _ | email <;> rcases si <;> simp [handleLogin, checkRateLimit]

/-! ### Theorems: voice verification -/

/-- C10: whenever the speech recognition error callback fires, the voice
step is marked verified and listening stops, for every component state. -/
theorem voice_error_marks_verified :
    ∀ (studentName : Str) (s : CamState),
      (camStep studentName s CamEvent.voiceError).voiceVerified = true ∧
      (camStep studentName s CamEvent.voiceError).voiceVerifying = false := by
  intro studentName s
  exact ⟨rfl, rfl⟩

/-- charsStartWith answers true exactly when the haystack extends the
needle. -/
theorem charsStartWith_iff (hay needle : Str) :
    charsStartWith hay needle = true ↔ ∃ q, needle ++ q = hay := by
  induction hay generalizing needle with
  | nil =>
    cases needle with
    | nil => simp [charsStartWith]
    | cons b bs => simp [charsStartWith]
  | cons a as ih =>
    cases needle with
    | nil => simp [charsStartWith]
    | cons b bs =>
      rw [charsStartWith, Bool.and_eq_true, beq_iff_eq, ih bs]
      constructor
      · rintro ⟨hab, q, hq⟩
        exact ⟨q, by rw [List.cons_append, hab, hq]⟩
      · rintro ⟨q, hq⟩
        rw [List.cons_append] at hq
        exact ⟨(List.cons.injEq _ _ _ _ ▸ hq).1.symm, q, (List.cons.injEq _ _ _ _ ▸ hq).2⟩

/-- charsContain answers true exactly when the needle is a contiguous
substring of the haystack. -/
theorem charsContain_iff (hay needle : Str) :
    charsContain hay needle = true ↔ ∃ p q, p ++ needle ++ q = hay := by
  induction hay with
  | nil =>
    cases needle with
    | nil => simp [charsContain]
    | cons b bs => simp [charsContain, List.isEmpty]
  | cons a t ih =>
    rw [charsContain, Bool.or_eq_true, charsStartWith_iff, ih]
    constructor
    · rintro (⟨q, hq⟩ | ⟨p, q, hpq⟩)
      · exact ⟨[], q, by simpa using hq⟩
      · exact ⟨a :: p, q, by rw [List.cons_append, List.cons_append, hpq]⟩
    · rintro ⟨p, q, hpq⟩
      cases p with
      | nil => exact Or.inl ⟨q, by simpa using hpq⟩
      | cons x xs =>
        rw [List.cons_append, List.cons_append] at hpq
        refine Or.inr ⟨xs, q, ?_⟩
        have := (List.cons.injEq _ _ _ _ ▸ hpq).2
        simpa using this

/-- C7: after the recognition result callback, starting from a state in
which the voice step is not yet verified, the step is verified exactly
when the lowercased transcript contains the first space separated
fragment of the lowercased stored name as a contiguous substring; on a
mismatch the step is left unverified with listening stopped, so the user
may retry. -/
theorem voice_result_spec :
    ∀ (studentName transcript : Str) (s : CamState),
      s.voiceVerified = false →
      ((camStep studentName s (CamEvent.voiceResult transcript)).voiceVerified = true ↔
        ∃ p q, p ++ (splitOnSpace (strToLower studentName)).headD [] ++ q =
          strToLower transcript) ∧
      (¬ (∃ p q, p ++ (splitOnSpace (strToLower studentName)).headD [] ++ q =
          strToLower transcript) →
        (camStep studentName s (CamEvent.voiceResult transcript)).voiceVerified = false ∧
        (camStep studentName s (CamEvent.voiceResult transcript)).voiceVerifying = false) := by
  intro studentName transcript s hs
  rw [← charsContain_iff (strToLower transcript)
    ((splitOnSpace (strToLower studentName)).headD [])]
  cases hmatch : charsContain (strToLower transcript)
      ((splitOnSpace (strToLower studentName)).headD []) with
  | true =>
    have hm : charsContain (strToLower transcript)
        ((splitOnSpace (strToLower studentName)).head?.getD []) = true := by
      simpa using hmatch
    exact ⟨by simp [camStep, hm], fun hfalse => absurd rfl hfalse⟩
  | false =>
    have hm : charsContain (strToLower transcript)
        ((splitOnSpace (strToLower studentName)).head?.getD []) = false := by
      simpa using hmatch
    exact ⟨by simp [camStep, hm, hs], fun _ => by simp [camStep, hm, hs]⟩

/-- Witness for C7: student name Ab, transcript ab, voice step gets
verified. -/
theorem voice_result_spec_witness :
    (camStep ['A', 'b'] { faceDetected := true, voiceVerifying := true, voiceVerified := false }
      (CamEvent.voiceResult ['a', 'b'])).voiceVerified = true :=
  ((voice_result_spec ['A', 'b'] ['a', 'b']
    { faceDetected := true, voiceVerifying := true, voiceVerified := false } rfl).1).mpr
    ⟨[], [], by decide⟩

/-! ### Theorems: attendance submission -/

/-- C2: a record is submitted only when both the face step and the voice
step report verified, and the submitted record carries status passed and
method face+voice exactly when the voice step is verified, face_only
exactly otherwise. -/
theorem attendance_submission_spec :
    ∀ (stud : Student) (s : CamState) (lat lon : ℝ) (rec : AttendanceRecord),
      clickMarkAttendance stud s lat lon = some rec →
      s.faceDetected = true ∧ s.voiceVerified = true ∧
      rec.verification_status = "passed" ∧
      (rec.verification_method = "face+voice" ↔ s.voiceVerified = true) ∧
      (rec.verification_method = "face_only" ↔ s.voiceVerified = false) := by
  intro stud s lat lon rec h
  obtain ⟨fd, vving, vved⟩ := s
  cases fd <;> cases vved <;>
    simp only [clickMarkAttendance, markAttendance, Bool.and_self, Bool.and_true,
      Bool.and_false, Bool.false_and, Bool.true_and, if_true, if_false,
      reduceCtorEq, Option.some.injEq, reduceIte] at h
  subst h
  refine ⟨rfl, rfl, rfl, ?_, ?_⟩
  · simp [markAttendance]
  · simp [markAttendance]

/-- Witness for C2: a state with both steps verified submits a record
whose method is face+voice. -/
theorem attendance_submission_spec_witness :
    (markAttendance { id := "s", user_id := "u", roll_number := "R", name := "Jo", email := "e" } true 0 0).verification_method = "face+voice" :=
  ((attendance_submission_spec
    { id := "s", user_id := "u", roll_number := "R", name := "Jo", email := "e" }
    { faceDetected := true, voiceVerifying := false, voiceVerified := true } 0 0
    (markAttendance { id := "s", user_id := "u", roll_number := "R", name := "Jo", email := "e" } true 0 0)
    rfl).2.2.2.1).mpr rfl

/-! ### Theorems: signup upsert -/

/-- C8: registering twice with the same roll number over a table that did
not yet contain that roll number leaves exactly one row with that roll
number, carrying the name and email of the second registration, and the
table grows by exactly one row rather than two. -/
theorem signup_upsert_spec :
    ∀ (students : List Student) (s1 s2 : Student),
      s1.roll_number = s2.roll_number →
      (∀ r ∈ students, r.roll_number ≠ s1.roll_number) →
      ((handle_new_student (handle_new_student students s1) s2).countP
        (fun r => r.roll_number == s2.roll_number)) = 1 ∧
      (∀ r ∈ handle_new_student (handle_new_student students s1) s2,
        r.roll_number = s2.roll_number → r.name = s2.name ∧ r.email = s2.email) ∧
      (handle_new_student (handle_new_student students s1) s2).length =
        students.length + 1 := by
  intro students s1 s2 hroll hfresh
  have hstep1 : handle_new_student students s1 = students ++ [s1] := by
    rw [handle_new_student, if_neg]
    simp only [List.any_eq_true, beq_iff_eq, not_exists]
    rintro r ⟨hr, hre⟩
    exact hfresh r hr hre
  have hs1mem : (students ++ [s1]).any (fun r => r.roll_number == s2.roll_number) = true := by
    simp [List.any_eq_true, hroll]
  have hstep2 : handle_new_student (handle_new_student students s1) s2 =
      students ++ [{ s1 with user_id := s2.user_id, name := s2.name, email := s2.email }] := by
    rw [hstep1, handle_new_student, if_pos hs1mem, List.map_append]
    congr 1
    · refine (List.map_congr_left fun r hr => ?_).trans (List.map_id' students)
      rw [if_neg]
      simp only [beq_iff_eq]
      rw [← hroll]
      exact hfresh r hr
    · simp [hroll]
  rw [hstep2]
  refine ⟨?_, ?_, ?_⟩
  · rw [List.countP_append]
    have h0 : students.countP (fun r => r.roll_number == s2.roll_number) = 0 := by
      rw [List.countP_eq_zero]
      intro r hr
      simp only [beq_iff_eq]
      rw [← hroll]
      exact hfresh r hr
    rw [h0]
    simp [hroll]
  · intro r hr hre
    rcases List.mem_append.mp hr with hr | hr
    · exact absurd (hroll ▸ hre) (hfresh r hr)
    · rcases List.mem_singleton.mp hr with rfl
      exact ⟨rfl, rfl⟩
  · simp

/-- Witness for C8: re-registering roll number R1 keeps a single row for
R1, now named New. -/
theorem signup_upsert_spec_witness :
    ((handle_new_student (handle_new_student []
      { id := "a", user_id := "u1", roll_number := "R1", name := "Old", email := "o@x" })
      { id := "b", user_id := "u2", roll_number := "R1", name := "New", email := "n@x" }).countP
      (fun r => r.roll_number ==
        ({ id := "b", user_id := "u2", roll_number := "R1", name := "New",
           email := "n@x" } : Student).roll_number)) = 1 :=
  (signup_upsert_spec []
    { id := "a", user_id := "u1", roll_number := "R1", name := "Old", email := "o@x" }
    { id := "b", user_id := "u2", roll_number := "R1", name := "New", email := "n@x" }
    rfl (by simp)).1

/-! ### Theorems: haversine distance -/

/-- atan2 at the point (0, 1) is zero. -/
theorem atan2_zero_one : atan2 0 1 = 0 := by
  rw [atan2, if_pos (by norm_num : (0:ℝ) < 1)]
  norm_num [Real.arctan_zero]

/-- The haversine distance from a point to itself is zero. -/
theorem calculateDistance_self (lat lon : ℝ) : calculateDistance lat lon lat lon = 0 := by
  simp only [calculateDistance]
  have h1 : (lat - lat) * Real.pi / 180 / 2 = 0 := by ring
  have h2 : (lon - lon) * Real.pi / 180 / 2 = 0 := by ring
  rw [h1, h2, Real.sin_zero]
  simp only [mul_zero, zero_mul, add_zero, zero_add, sub_zero, Real.sqrt_zero, Real.sqrt_one]
  rw [atan2_zero_one]
  ring

/-- The haversine distance is symmetric in its two coordinate pairs. -/
theorem calculateDistance_comm (lat1 lon1 lat2 lon2 : ℝ) :
    calculateDistance lat1 lon1 lat2 lon2 = calculateDistance lat2 lon2 lat1 lon1 := by
  simp only [calculateDistance]
  have h1 : (lat1 - lat2) * Real.pi / 180 / 2 = -((lat2 - lat1) * Real.pi / 180 / 2) := by
    ring
  have h2 : (lon1 - lon2) * Real.pi / 180 / 2 = -((lon2 - lon1) * Real.pi / 180 / 2) := by
    ring
  rw [h1, h2, Real.sin_neg, Real.sin_neg]
  ring_nf

/-- C9: calculateDistance is symmetric, and it is zero whenever the two
coordinate pairs coincide. -/
theorem calculateDistance_symm_and_zero :
    (∀ lat1 lon1 lat2 lon2 : ℝ,
      calculateDistance lat1 lon1 lat2 lon2 = calculateDistance lat2 lon2 lat1 lon1) ∧
    (∀ lat1 lon1 lat2 lon2 : ℝ, lat1 = lat2 → lon1 = lon2 →
      calculateDistance lat1 lon1 lat2 lon2 = 0) := by
  refine ⟨calculateDistance_comm, ?_⟩
  rintro lat1 lon1 lat2 lon2 rfl rfl
  exact calculateDistance_self lat1 lon1

/-- Witness for C9: the distance from the reference coordinate to itself
is zero. -/
theorem calculateDistance_symm_and_zero_witness :
    calculateDistance COLLEGE_LAT COLLEGE_LON COLLEGE_LAT COLLEGE_LON = 0 :=
  calculateDistance_symm_and_zero.2 COLLEGE_LAT COLLEGE_LON COLLEGE_LAT COLLEGE_LON rfl rfl

/-- For a nonnegative argument, arctan is bounded by the argument. -/
theorem arctan_le_self_of_nonneg {x : ℝ} (hx : 0 ≤ x) : Real.arctan x ≤ x := by
  rcases eq_or_lt_of_le hx with h | h
  · rw [← h, Real.arctan_zero]
  · have h0 : 0 < Real.arctan x := by
      rw [← Real.arctan_zero]
      exact Real.arctan_strictMono h
    have h2 : Real.arctan x < Real.pi / 2 := Real.arctan_lt_pi_div_two x
    have h3 := Real.lt_tan h0 h2
    rw [Real.tan_arctan] at h3
    exact h3.le

/-- The haversine outer formula is below 100 meters whenever the inner
square sum is at most 4e-12. -/
theorem haversine_small (a : ℝ) (ha : a ≤ 4e-12) :
    6371e3 * (2 * atan2 (Real.sqrt a) (Real.sqrt (1 - a))) ≤ 100 := by
  have h1a : (1/2 : ℝ) ≤ Real.sqrt (1 - a) := by
    have h14 : (1/4 : ℝ) ≤ 1 - a := by linarith
    calc (1/2 : ℝ) = Real.sqrt ((1/2) ^ 2) := (Real.sqrt_sq (by norm_num)).symm
    _ = Real.sqrt (1/4) := by norm_num
    _ ≤ Real.sqrt (1 - a) := Real.sqrt_le_sqrt h14
  have hpos : (0:ℝ) < Real.sqrt (1 - a) := lt_of_lt_of_le (by norm_num) h1a
  have hsa : Real.sqrt a ≤ 2e-6 := by
    calc Real.sqrt a ≤ Real.sqrt (4e-12) := Real.sqrt_le_sqrt ha
    _ = Real.sqrt ((2e-6) ^ 2) := by norm_num
    _ = 2e-6 := Real.sqrt_sq (by norm_num)
  have hq : Real.sqrt a / Real.sqrt (1 - a) ≤ 4e-6 := by
    calc Real.sqrt a / Real.sqrt (1 - a) ≤ 2e-6 / (1/2) := by gcongr
    _ = 4e-6 := by norm_num
  have h0q : 0 ≤ Real.sqrt a / Real.sqrt (1 - a) :=
    div_nonneg (Real.sqrt_nonneg a) hpos.le
  have hunfold : atan2 (Real.sqrt a) (Real.sqrt (1 - a)) =
      Real.arctan (Real.sqrt a / Real.sqrt (1 - a)) := by
    rw [atan2, if_pos hpos]
  rw [hunfold]
  have harc := arctan_le_self_of_nonneg h0q
  linarith

/-- The example distance from the spec: the position one ten-thousandth
of a degree north and east of the reference coordinate is within the 100
meter radius. -/
theorem exampleDistance_le_radius :
    calculateDistance 28.6140 77.2091 COLLEGE_LAT COLLEGE_LON ≤ 100 := by
  rw [COLLEGE_LAT, COLLEGE_LON]
  simp only [calculateDistance]
  apply haversine_small
  have h1 : ((28.6139:ℝ) - 28.6140) * Real.pi / 180 / 2 = -(0.0001 * Real.pi / 360) := by
    ring
  have h2 : ((77.2090:ℝ) - 77.2091) * Real.pi / 180 / 2 = -(0.0001 * Real.pi / 360) := by
    ring
  rw [h1, h2, Real.sin_neg]
  have hv0 : (0:ℝ) < 0.0001 * Real.pi / 360 := by positivity
  have hvle : (0.0001:ℝ) * Real.pi / 360 ≤ 1e-6 := by
    nlinarith [Real.pi_lt_d2]
  have hs1 : Real.sin (0.0001 * Real.pi / 360) ≤ 0.0001 * Real.pi / 360 :=
    (Real.sin_lt hv0).le
  have hs0 : 0 ≤ Real.sin (0.0001 * Real.pi / 360) := by
    apply Real.sin_nonneg_of_nonneg_of_le_pi hv0.le
    nlinarith [Real.pi_gt_three]
  have hsq : Real.sin (0.0001 * Real.pi / 360) * Real.sin (0.0001 * Real.pi / 360) ≤ 1e-12 := by
    nlinarith
  have hcc : Real.cos (28.6140 * Real.pi / 180) * Real.cos (28.6139 * Real.pi / 180) ≤ 1 := by
    nlinarith [Real.cos_le_one (28.6140 * Real.pi / 180),
      Real.neg_one_le_cos (28.6140 * Real.pi / 180),
      Real.cos_le_one (28.6139 * Real.pi / 180),
      Real.neg_one_le_cos (28.6139 * Real.pi / 180)]
  have hcc0 : -1 ≤ Real.cos (28.6140 * Real.pi / 180) * Real.cos (28.6139 * Real.pi / 180) := by
    nlinarith [Real.cos_le_one (28.6140 * Real.pi / 180),
      Real.neg_one_le_cos (28.6140 * Real.pi / 180),
      Real.cos_le_one (28.6139 * Real.pi / 180),
      Real.neg_one_le_cos (28.6139 * Real.pi / 180)]
  nlinarith [hsq, hcc, hcc0, mul_self_nonneg (Real.sin (0.0001 * Real.pi / 360))]

/-- C5: the position callback moves the session to the camera step
exactly when the haversine distance to the reference coordinate is within
the radius, otherwise it stays in the location step and reports the
measured distance; and at the example position (28.6140, 77.2091) the
distance is within the 100 meter radius so the flow advances to the
camera step. -/
theorem location_step_spec :
    (∀ (s : DashState) (lat lon : ℝ),
      calculateDistance lat lon COLLEGE_LAT COLLEGE_LON ≤ ALLOWED_RADIUS_METERS →
      onPosition s lat lon =
        ({ s with locationValid := true, currentStep := Step.camera, showCamera := true },
          none)) ∧
    (∀ (s : DashState) (lat lon : ℝ),
      ¬ calculateDistance lat lon COLLEGE_LAT COLLEGE_LON ≤ ALLOWED_RADIUS_METERS →
      onPosition s lat lon = (s, some (calculateDistance lat lon COLLEGE_LAT COLLEGE_LON))) ∧
    (∀ s : DashState,
      onPosition s 28.6140 77.2091 =
        ({ s with locationValid := true, currentStep := Step.camera, showCamera := true },
          none)) := by
  refine ⟨?_, ?_, ?_⟩
  · intro s lat lon h
    rw [onPosition, if_pos h]
  · intro s lat lon h
    rw [onPosition, if_neg h]
  · intro s
    rw [onPosition, if_pos]
    rw [ALLOWED_RADIUS_METERS]
    exact exampleDistance_le_radius

/-- Witness for C5: at the reference coordinate itself the distance is
zero, inside the radius, and the callback advances to the camera step. -/
theorem location_step_spec_witness :
    onPosition initialDashState COLLEGE_LAT COLLEGE_LON =
      ({ initialDashState with locationValid := true, currentStep := Step.camera, showCamera := true }, none) :=
  location_step_spec.1 initialDashState COLLEGE_LAT COLLEGE_LON
    (by rw [calculateDistance_self, ALLOWED_RADIUS_METERS]; norm_num)

/-- C6: the Mark Another Attendance button only rewrites currentStep.
Starting from the in-session camera state, marking attendance and then
resetting yields a state that is back in the location step but still has
locationValid set, so the Verify Location button is not rendered and the
camera stays hidden: no new session can be started, contradicting the
stated behaviour. The first conjunct shows the pre-reset state is the one
reached by a real session from the initial state. -/
theorem reset_after_complete_stuck :
    (onPosition initialDashState COLLEGE_LAT COLLEGE_LON).1 =
      { currentStep := Step.camera, locationValid := true, showCamera := true } ∧
    resetToLocation (handleAttendanceMarked
        { currentStep := Step.camera, locationValid := true, showCamera := true }) =
      { currentStep := Step.location, locationValid := true, showCamera := false } ∧
    verifyLocationButtonVisible
      (resetToLocation (handleAttendanceMarked
        { currentStep := Step.camera, locationValid := true, showCamera := true })) = false ∧
    (resetToLocation (handleAttendanceMarked
        { currentStep := Step.camera, locationValid := true, showCamera := true })).showCamera =
      false := by
  refine ⟨?_, rfl, rfl, rfl⟩
  rw [onPosition, if_pos]
  rw [calculateDistance_self, ALLOWED_RADIUS_METERS]
  norm_num

end CampusAuth
